import Mathlib

/-!
# Verification of the RLHive DRQN agents

Shallow embedding of the recurrent value-based agents of RLHive:
`DRQNAgent` (src/hive/agents/drqn.py) and its subclass `DRQNhiddenAgent`
(src/hive/agents/drqn_hidden.py).  Scalars are modelled as rationals,
tensors as lists or index functions, the mutable Python objects as
explicit state records, and the external collaborators (schedules,
replay buffer, recurrent network) by the contracts the spec gives them.
-/

/-- Observations are modelled as flat numeric tensors. -/
abbrev Obs := List ℚ

/-- The hidden state of the recurrent core: an ordered pair of tensors
`(h, c)`, each flattened to a list of scalars
(shape `[num_layers, 1, hidden_size]` flattened). -/
abbrev HiddenState := List ℚ × List ℚ

/-- A recurrent forward pass `(observation, hidden) -> (q_values, new_hidden)`,
the contract of `RecurrentValueNetwork.forward`.  The network itself is
external to the agent code, so the step functions take it as a parameter. -/
abbrev Fwd := Obs → HiddenState → List ℚ × HiddenState

/-- Modelled from the spec: `init_hidden(batch_size)` of the recurrent
network (`hive/agents/qnets`, not under src/) "returns zero state of
correct shape".  `hidden_dim` is the flattened
`num_layers * batch_size * hidden_size`. -/
def init_hidden (hidden_dim : Nat) : HiddenState :=
  (List.replicate hidden_dim 0, List.replicate hidden_dim 0)

/-- Modelled from the spec: the learn-start schedule
(`hive/utils/schedule.py` is not under src/) is "keyed off total steps,
becomes permanently true once a minimum history threshold is reached".
`get_value()` peeks without advancing; `update()` advances and returns
the current value. -/
structure SwitchSchedule where
  steps : Nat
  threshold : Nat
deriving DecidableEq

def SwitchSchedule.get_value (s : SwitchSchedule) : Bool :=
  decide (s.threshold ≤ s.steps)

def SwitchSchedule.update (s : SwitchSchedule) : Bool × SwitchSchedule :=
  let s2 : SwitchSchedule := { s with steps := s.steps + 1 }
  (s2.get_value, s2)

/-- Modelled from the spec: a periodic schedule
(`hive/utils/schedule.py` is not under src/) is a "periodic counter"
that fires every `period`-th `update()` call. -/
structure PeriodicSchedule where
  counter : Nat
  period : Nat
deriving DecidableEq

def PeriodicSchedule.update (s : PeriodicSchedule) : Bool × PeriodicSchedule :=
  let s2 : PeriodicSchedule := { s with counter := s.counter + 1 }
  (decide (s2.counter % s2.period = 0), s2)

/-- Modelled from the spec: the epsilon schedule is an external pure
state machine; only its advancement matters to the agent code, so it is
modelled as a step counter.  The value it yields is supplied to `act`
as a function `eps_value` of the counter. -/
structure EpsilonSchedule where
  steps : Nat
deriving DecidableEq

def EpsilonSchedule.update (s : EpsilonSchedule) : EpsilonSchedule :=
  { steps := s.steps + 1 }

/-- Constructor-time configuration shared by both agents
(`DRQNAgent.__init__`, drqn.py lines 32-57). -/
structure Config where
  act_dim : Nat
  batch_size : Nat
  discount_rate : ℚ
  reward_clip : Option ℚ
  test_epsilon : ℚ
  hidden_dim : Nat
  target_net_soft_update : Bool
  target_net_update_fraction : ℚ
deriving DecidableEq

/-- The raw per-step information passed to `update` ("a full transition,
with keys for observation, action, reward, and done"). -/
structure UpdateInfo where
  observation : Obs
  action : Nat
  reward : ℚ
  done : Bool
  agent_id : Option Nat
deriving DecidableEq

/-- A transition as stored in the replay buffer.  The
`hidden_state`/`cell_state` fields are only populated by the persisting
variant (`DRQNhiddenAgent.preprocess_update_info`). -/
structure Transition where
  observation : Obs
  action : Nat
  reward : ℚ
  done : Bool
  agent_id : Option Nat
  hidden_state : Option (List ℚ)
  cell_state : Option (List ℚ)
deriving DecidableEq

/-- Reward clipping of `preprocess_update_info`:
`np.clip(reward, -c, c)` (drqn.py lines 159-162). -/
def clip_reward (reward_clip : Option ℚ) (r : ℚ) : ℚ :=
  match reward_clip with
  | some c => max (-c) (min r c)
  | none => r

/-- Embeds `DRQNAgent.preprocess_update_info` (drqn.py lines 151-172): clip the
reward if configured and forward the transition fields; no hidden-state
snapshot. -/
def DRQNAgent.preprocess_update_info (cfg : Config) (info : UpdateInfo) : Transition :=
  { observation := info.observation
    action := info.action
    reward := clip_reward cfg.reward_clip info.reward
    done := info.done
    agent_id := info.agent_id
    hidden_state := none
    cell_state := none }

/-! ## Constructor signatures (claims C4 and C10)

`DRQNhiddenAgent.__init__` (drqn_hidden.py line 32) forwards its
arguments positionally to `DRQNAgent.__init__` (drqn.py lines 32-57).
We embed the two signatures as parameter-name lists and the
positional-argument binding of Python as a counting check. -/

/-- The parameters of `DRQNAgent.__init__` after `self`
(drqn.py lines 34-56), in order.  There is no `stack_size` parameter
and no `*args`/`**kwargs`. -/
def DRQNAgent.init_params : List String :=
  ["representation_net", "obs_dim", "act_dim", "id", "optimizer_fn",
   "loss_fn", "init_fn", "replay_buffer", "discount_rate", "n_step",
   "grad_clip", "reward_clip", "update_period_schedule",
   "target_net_soft_update", "target_net_update_fraction",
   "target_net_update_schedule", "epsilon_schedule", "test_epsilon",
   "min_replay_history", "batch_size", "device", "logger", "log_frequency"]

/-- The parameters of `DRQNAgent.__init__` that have no default value
(drqn.py lines 34-36): `representation_net`, `obs_dim`, `act_dim`. -/
def DRQNAgent.init_required : Nat := 3

/-- The positional arguments `DRQNhiddenAgent.__init__` passes to
`super().__init__` (drqn_hidden.py line 32), in order; `stack_size` is
inserted between `act_dim` and `id`. -/
def DRQNhiddenAgent.super_args : List String :=
  ["representation_net", "obs_dim", "act_dim", "stack_size", "id",
   "optimizer_fn", "loss_fn", "init_fn", "replay_buffer", "discount_rate",
   "n_step", "grad_clip", "reward_clip", "update_period_schedule",
   "target_net_soft_update", "target_net_update_fraction",
   "target_net_update_schedule", "epsilon_schedule", "test_epsilon",
   "min_replay_history", "batch_size", "device", "logger", "log_frequency"]

/-- Result of binding the arguments of a Python call to a signature. -/
inductive PyCallResult where
  | ok : PyCallResult
  | typeError : PyCallResult
deriving DecidableEq

/-- Python positional-argument binding for a signature with no
`*args`/`**kwargs`: binding `num_args` positional arguments to `params`
succeeds iff at least the parameters without defaults are covered and
no argument is left over; otherwise the call raises `TypeError` before
the callee body runs. -/
def bind_positional (params : List String) (num_required : Nat) (num_args : Nat) :
    PyCallResult :=
  if num_required ≤ num_args ∧ num_args ≤ params.length then .ok else .typeError

/-- Claim C4: every construction of `DRQNhiddenAgent` raises a
`TypeError` before any agent state is created: its `__init__` forwards
24 positional arguments (including `stack_size`) to
`DRQNAgent.__init__`, which accepts only 23 parameters and has no
`stack_size` parameter, so the superclass call — the only statement of
the subclass `__init__` — can never bind them. -/
theorem c4_hidden_init_type_error :
    bind_positional DRQNAgent.init_params DRQNAgent.init_required
        DRQNhiddenAgent.super_args.length = PyCallResult.typeError
      ∧ DRQNhiddenAgent.super_args.length = 24
      ∧ DRQNAgent.init_params.length = 23
      ∧ "stack_size" ∉ DRQNAgent.init_params := by
  decide

/-- The keyword arguments `DRQNAgent.__init__` passes to
`DQNAgent.__init__` in its `super().__init__(...)` call
(drqn.py lines 105-129).  External object handles are modelled as
naturals, `obs_dim` as a shape list. -/
structure DQNSuperArgs where
  representation_net : Nat
  obs_dim : List Nat
  act_dim : Nat
  id : Nat
  optimizer_fn : Option Nat
  loss_fn : Option Nat
  init_fn : Option Nat
  replay_buffer : Option Nat
  discount_rate : ℚ
  n_step : Nat
  grad_clip : Option ℚ
  reward_clip : Option ℚ
  update_period_schedule : Option Nat
  target_net_soft_update : Bool
  target_net_update_fraction : ℚ
  target_net_update_schedule : Option Nat
  epsilon_schedule : Option Nat
  test_epsilon : ℚ
  min_replay_history : Nat
  batch_size : Nat
  device : String
  logger : Option Nat
  log_frequency : Nat
deriving DecidableEq

/-- The `super().__init__` call of `DRQNAgent.__init__`
(drqn.py lines 105-129) as a function of the caller-supplied
parameters: every field is forwarded verbatim except `id`, which is
passed as the literal `0` (drqn.py line 109). -/
def DRQNAgent.super_call (representation_net : Nat) (obs_dim : List Nat)
    (act_dim : Nat) (caller_id : Nat) (optimizer_fn loss_fn init_fn
    replay_buffer : Option Nat) (discount_rate : ℚ) (n_step : Nat)
    (grad_clip reward_clip : Option ℚ) (update_period_schedule : Option Nat)
    (target_net_soft_update : Bool) (target_net_update_fraction : ℚ)
    (target_net_update_schedule epsilon_schedule : Option Nat)
    (test_epsilon : ℚ) (min_replay_history batch_size : Nat)
    (device : String) (logger : Option Nat) (log_frequency : Nat) :
    DQNSuperArgs :=
  { representation_net := representation_net
    obs_dim := obs_dim
    act_dim := act_dim
    id := 0
    optimizer_fn := optimizer_fn
    loss_fn := loss_fn
    init_fn := init_fn
    replay_buffer := replay_buffer
    discount_rate := discount_rate
    n_step := n_step
    grad_clip := grad_clip
    reward_clip := reward_clip
    update_period_schedule := update_period_schedule
    target_net_soft_update := target_net_soft_update
    target_net_update_fraction := target_net_update_fraction
    target_net_update_schedule := target_net_update_schedule
    epsilon_schedule := epsilon_schedule
    test_epsilon := test_epsilon
    min_replay_history := min_replay_history
    batch_size := batch_size
    device := device
    logger := logger
    log_frequency := log_frequency }

/-- Claim C10: `DRQNAgent.__init__` discards its caller-supplied `id`:
the argument record it passes to the superclass has `id = 0` for every
caller-supplied value, so two constructions differing only in `id`
forward identical arguments. -/
theorem c10_id_discarded (rn : Nat) (od : List Nat) (ad : Nat) (i j : Nat)
    (optf lf inf rb : Option Nat) (dr : ℚ) (ns : Nat) (gc rc : Option ℚ)
    (ups : Option Nat) (tns : Bool) (tnf : ℚ) (tus es : Option Nat)
    (te : ℚ) (mrh bs : Nat) (dev : String) (lg : Option Nat) (lf2 : Nat) :
    (DRQNAgent.super_call rn od ad i optf lf inf rb dr ns gc rc ups tns tnf
        tus es te mrh bs dev lg lf2).id = 0
      ∧ DRQNAgent.super_call rn od ad i optf lf inf rb dr ns gc rc ups tns
          tnf tus es te mrh bs dev lg lf2
        = DRQNAgent.super_call rn od ad j optf lf inf rb dr ns gc rc ups
            tns tnf tus es te mrh bs dev lg lf2 := by
  exact ⟨rfl, rfl⟩

/-! ## Agent runtime state and `act` -/

/-- Mutable runtime state of the baseline `DRQNAgent`: training flag,
episode-start flag, the live hidden-state cursor, the schedule objects,
the replay buffer (the external buffer is modelled by the list of
transitions it holds, `size()` by its length), and the flattened
parameter vectors of the online and target networks. -/
structure DRQNState where
  training : Bool
  episode_start : Bool
  hidden_state : HiddenState
  learn_schedule : SwitchSchedule
  epsilon_schedule : EpsilonSchedule
  update_period_schedule : PeriodicSchedule
  target_net_update_schedule : PeriodicSchedule
  replay_buffer : List Transition
  qnet_params : List ℚ
  target_params : List ℚ
deriving DecidableEq

/-- Runtime state of the persisting `DRQNhiddenAgent`: the baseline
fields plus the `_prev_hidden_state`/`_prev_cell_state` snapshots taken
in `act` (drqn_hidden.py lines 89-90). -/
structure DRQNhiddenState where
  training : Bool
  episode_start : Bool
  hidden_state : HiddenState
  prev_hidden_state : List ℚ
  prev_cell_state : List ℚ
  learn_schedule : SwitchSchedule
  epsilon_schedule : EpsilonSchedule
  update_period_schedule : PeriodicSchedule
  target_net_update_schedule : PeriodicSchedule
  replay_buffer : List Transition
  qnet_params : List ℚ
  target_params : List ℚ
deriving DecidableEq

/-- First index of a maximal element, modelling `torch.argmax` on a
1-D tensor (the source notes it does "not explicitly handle the ties"). -/
def argmax_idx (l : List ℚ) : Nat :=
  match l.enum.foldl
      (fun (best : Option (Nat × ℚ)) (p : Nat × ℚ) =>
        match best with
        | none => some p
        | some q => if q.2 < p.2 then some p else some q)
      none with
  | some q => q.1
  | none => 0

/-- Result of one `act` call: the returned action, the exploration rate
the call used (the value the source logs), and the successor state. -/
structure ActResult (S : Type) where
  action : Nat
  epsilon : ℚ
  state : S
deriving DecidableEq

/-- Embeds `DRQNAgent.act` (drqn.py lines 190-229).  The rng draws are passed
in: `rand` models `self._rng.random()` (uniform in `[0,1)`) and
`rand_int` models `self._rng.integers(self._act_dim)` (already reduced
mod `act_dim` to land in `[0, act_dim)`).  `should_log` models
`self._logger.should_log(self._timescale)`; `eps_value` maps the
counter of the epsilon schedule to its value.  In training mode, epsilon is
`1.0` until `learn_schedule.get_value()` (a peek) turns true, and the
epsilon schedule is advanced only on the other branch; the forward pass
always replaces the live hidden state. -/
def DRQNAgent.act (cfg : Config) (fwd : Fwd) (eps_value : Nat → ℚ)
    (should_log : Bool) (rand : ℚ) (rand_int : Nat)
    (s : DRQNState) (observation : Obs) : ActResult DRQNState :=
  let eps :=
    if s.training then
      if ¬ s.learn_schedule.get_value then ((1 : ℚ), s.epsilon_schedule)
      else
        let es := s.epsilon_schedule.update
        (eps_value es.steps, es)
    else (cfg.test_epsilon, s.epsilon_schedule)
  let fw := fwd observation s.hidden_state
  let action := if rand < eps.1 then rand_int % cfg.act_dim else argmax_idx fw.1
  let episode_start :=
    if s.training && should_log && s.episode_start then false else s.episode_start
  { action := action
    epsilon := eps.1
    state := { s with hidden_state := fw.2
                      epsilon_schedule := eps.2
                      episode_start := episode_start } }

/-- Embeds `DRQNhiddenAgent.act` (drqn_hidden.py lines 62-106): identical to
the baseline except that, before the forward pass consumes the hidden
state, the current `(h, c)` pair is snapshotted into
`_prev_hidden_state`/`_prev_cell_state` (lines 89-90; `.detach().cpu()
.numpy()` is a copy, modelled as the identity on the values). -/
def DRQNhiddenAgent.act (cfg : Config) (fwd : Fwd) (eps_value : Nat → ℚ)
    (should_log : Bool) (rand : ℚ) (rand_int : Nat)
    (s : DRQNhiddenState) (observation : Obs) : ActResult DRQNhiddenState :=
  let eps :=
    if s.training then
      if ¬ s.learn_schedule.get_value then ((1 : ℚ), s.epsilon_schedule)
      else
        let es := s.epsilon_schedule.update
        (eps_value es.steps, es)
    else (cfg.test_epsilon, s.epsilon_schedule)
  let prev_h := s.hidden_state.1
  let prev_c := s.hidden_state.2
  let fw := fwd observation s.hidden_state
  let action := if rand < eps.1 then rand_int % cfg.act_dim else argmax_idx fw.1
  let episode_start :=
    if s.training && should_log && s.episode_start then false else s.episode_start
  { action := action
    epsilon := eps.1
    state := { s with hidden_state := fw.2
                      prev_hidden_state := prev_h
                      prev_cell_state := prev_c
                      epsilon_schedule := eps.2
                      episode_start := episode_start } }

/-- Embeds `DRQNhiddenAgent.preprocess_update_info` (drqn_hidden.py lines
36-60): like the baseline but additionally attaches the
`_prev_hidden_state`/`_prev_cell_state` snapshots. -/
def DRQNhiddenAgent.preprocess_update_info (cfg : Config)
    (s : DRQNhiddenState) (info : UpdateInfo) : Transition :=
  { observation := info.observation
    action := info.action
    reward := clip_reward cfg.reward_clip info.reward
    done := info.done
    agent_id := info.agent_id
    hidden_state := some s.prev_hidden_state
    cell_state := some s.prev_cell_state }

/-! ## `update` -/

/-- Modelled from the spec: `DQNAgent._update_target`
(hive/agents/dqn.py, not under src/), spec section 4.3 step 6: "either
hard copy (online -> target parameters verbatim) or exponential moving
average with mixing fraction `target_net_update_fraction`
(target <- (1-f)*target + f*online), selected by a boolean flag at
construction". -/
def update_target (soft : Bool) (f : ℚ) (online target : List ℚ) : List ℚ :=
  if soft then (List.zip online target).map (fun p => (1 - f) * p.2 + f * p.1)
  else online

/-- Instrumentation of one `update` call, recording which operations of
the source function executed: whether a transition was added to the
buffer, whether `replay_buffer.sample` was invoked, whether a loss was
computed and backpropagated, whether `optimizer.step()` ran, whether
the target-update schedule check (the last statement of `update`) ran,
and whether it fired. -/
structure UpdateEffects where
  added : Bool
  sample_attempted : Bool
  loss_computed : Bool
  optimizer_stepped : Bool
  target_check_ran : Bool
  target_fired : Bool
deriving DecidableEq

def UpdateEffects.nothing : UpdateEffects :=
  { added := false, sample_attempted := false, loss_computed := false
    optimizer_stepped := false, target_check_ran := false, target_fired := false }

/-- Embeds `DRQNAgent.update` (drqn.py lines 231-306).  Control flow in source
order: (1) on `done`, set `episode_start` (the baseline does NOT touch
the hidden state here); (2) return if not training; (3) add the
preprocessed transition to the buffer; (4) the gate
`learn_schedule.update() and size() > 0 and update_period_schedule.update()`
with Python short-circuit evaluation; (5) when gated true, sample a
batch and run the training step — its tensor computation (embedded
separately as `td_targets`) writes only the parameters of the online
network, modelled by the external optimizer step `opt_step`, and
touches the local `hidden_state` variable, never `self._hidden_state`;
(6) unconditionally check the target-update schedule and synchronize
when it fires. -/
def DRQNAgent.update (cfg : Config) (opt_step : List ℚ → List ℚ)
    (s : DRQNState) (info : UpdateInfo) : DRQNState × UpdateEffects :=
  let s1 := if info.done then { s with episode_start := true } else s
  if s1.training = false then (s1, UpdateEffects.nothing)
  else
    let s2 := { s1 with
      replay_buffer := s1.replay_buffer ++ [DRQNAgent.preprocess_update_info cfg info] }
    let lp := s2.learn_schedule.update
    let s3 := { s2 with learn_schedule := lp.2 }
    let gated :=
      if lp.1 then
        if 0 < s3.replay_buffer.length then
          let pp := s3.update_period_schedule.update
          let s4 := { s3 with update_period_schedule := pp.2 }
          if pp.1 then
            ({ s4 with qnet_params := opt_step s4.qnet_params },
             { UpdateEffects.nothing with
                added := true, sample_attempted := true,
                loss_computed := true, optimizer_stepped := true })
          else (s4, { UpdateEffects.nothing with added := true })
        else (s3, { UpdateEffects.nothing with added := true })
      else (s3, { UpdateEffects.nothing with added := true })
    let tp := gated.1.target_net_update_schedule.update
    let s5 := { gated.1 with target_net_update_schedule := tp.2 }
    if tp.1 then
      ({ s5 with target_params := update_target cfg.target_net_soft_update
                   cfg.target_net_update_fraction s5.qnet_params s5.target_params },
       { gated.2 with target_check_ran := true, target_fired := true })
    else (s5, { gated.2 with target_check_ran := true })

/-- Embeds `DRQNhiddenAgent.update` (drqn_hidden.py lines 108-202): same
control flow as the baseline, except that the `done` branch
additionally resets the live hidden state to
`init_hidden(batch_size=1)` (lines 119-121) and the stored transition
carries the hidden/cell snapshots.  The training block reconstructs
batch hidden states into local variables only and never writes
`self._hidden_state`. -/
def DRQNhiddenAgent.update (cfg : Config) (opt_step : List ℚ → List ℚ)
    (s : DRQNhiddenState) (info : UpdateInfo) : DRQNhiddenState × UpdateEffects :=
  let s1 :=
    if info.done then
      { s with episode_start := true, hidden_state := init_hidden cfg.hidden_dim }
    else s
  if s1.training = false then (s1, UpdateEffects.nothing)
  else
    let s2 := { s1 with
      replay_buffer :=
        s1.replay_buffer ++ [DRQNhiddenAgent.preprocess_update_info cfg s1 info] }
    let lp := s2.learn_schedule.update
    let s3 := { s2 with learn_schedule := lp.2 }
    let gated :=
      if lp.1 then
        if 0 < s3.replay_buffer.length then
          let pp := s3.update_period_schedule.update
          let s4 := { s3 with update_period_schedule := pp.2 }
          if pp.1 then
            ({ s4 with qnet_params := opt_step s4.qnet_params },
             { UpdateEffects.nothing with
                added := true, sample_attempted := true,
                loss_computed := true, optimizer_stepped := true })
          else (s4, { UpdateEffects.nothing with added := true })
        else (s3, { UpdateEffects.nothing with added := true })
      else (s3, { UpdateEffects.nothing with added := true })
    let tp := gated.1.target_net_update_schedule.update
    let s5 := { gated.1 with target_net_update_schedule := tp.2 }
    if tp.1 then
      ({ s5 with target_params := update_target cfg.target_net_soft_update
                   cfg.target_net_update_fraction s5.qnet_params s5.target_params },
       { gated.2 with target_check_ran := true, target_fired := true })
    else (s5, { gated.2 with target_check_ran := true })

/-! ## TD-target computation (drqn.py lines 280-290) -/

/-- Embeds `torch.max` over a 1-D tensor modelled as a list (the dimension is
nonempty in the source: `act_dim` actions). -/
def list_max : List ℚ → ℚ
  | [] => 0
  | x :: xs => xs.foldl max x

lemma foldl_max_init_le (xs : List ℚ) : ∀ a : ℚ, a ≤ xs.foldl max a := by
  induction xs with
  | nil => intro a; exact le_refl a
  | cons x xs ih =>
    intro a
    exact le_trans (le_max_left a x) (ih (max a x))

lemma foldl_max_mem_le (xs : List ℚ) :
    ∀ a : ℚ, ∀ y ∈ xs, y ≤ xs.foldl max a := by
  induction xs with
  | nil => intro a y hy; cases hy
  | cons x xs ih =>
    intro a y hy
    rcases List.mem_cons.mp hy with h | h
    · subst h
      exact le_trans (le_max_right a y) (foldl_max_init_le xs (max a y))
    · exact ih (max a x) y h

lemma foldl_max_eq_or_mem (xs : List ℚ) :
    ∀ a : ℚ, xs.foldl max a = a ∨ xs.foldl max a ∈ xs := by
  induction xs with
  | nil => intro a; exact Or.inl rfl
  | cons x xs ih =>
    intro a
    rcases ih (max a x) with h | h
    · rw [List.foldl_cons, h]
      rcases max_choice a x with hm | hm
      · exact Or.inl hm
      · refine Or.inr ?_
        rw [hm]
        exact List.mem_cons_self x xs
    · exact Or.inr (List.mem_cons_of_mem x h)

lemma list_max_mem (l : List ℚ) (h : l ≠ []) : list_max l ∈ l := by
  match l with
  | [] => exact absurd rfl h
  | x :: xs =>
    rcases foldl_max_eq_or_mem xs x with h2 | h2
    · rw [list_max, h2]; exact List.mem_cons_self x xs
    · rw [list_max]; exact List.mem_cons_of_mem x h2

lemma le_list_max (l : List ℚ) (y : ℚ) (hy : y ∈ l) : y ≤ list_max l := by
  match l with
  | [] => cases hy
  | x :: xs =>
    rcases List.mem_cons.mp hy with h | h
    · rw [list_max, h]; exact foldl_max_init_le xs x
    · exact foldl_max_mem_le xs x y h

/-- Embeds `next_qvals.view(batch_size, max_seq_len, -1)` (drqn.py line 283):
the recurrent forward pass yields a `[batch*seq, act_dim]` tensor whose
row for batch element `b` and timestep `t` is row `b * max_seq_len + t`. -/
def view3 (max_seq_len : Nat) (q : Nat → Nat → ℚ) : Nat → Nat → Nat → ℚ :=
  fun b t a => q (b * max_seq_len + t) a

/-- Embeds `torch.max(next_qvals, dim=-1)` (drqn.py line 286): per batch
element and timestep, the maximum over the `act_dim` action axis. -/
def max_over_actions (act_dim : Nat) (q : Nat → Nat → Nat → ℚ) : Nat → Nat → ℚ :=
  fun b t => list_max ((List.range act_dim).map (q b t))

/-- The TD-target pipeline of the gated training step (drqn.py lines
280-290, identical in drqn_hidden.py lines 174-185): the flat Q output of the target
network on the next-observation sequence is reshaped,
maxed over actions, and combined as
`reward + discount_rate * next_qvals * (1 - done)`.  Only the output
of the target network enters; the online network plays no part. -/
def td_targets (max_seq_len act_dim : Nat) (discount_rate : ℚ)
    (next_q_flat : Nat → Nat → ℚ) (reward don : Nat → Nat → ℚ) :
    Nat → Nat → ℚ :=
  fun b t =>
    reward b t
      + discount_rate * max_over_actions act_dim (view3 max_seq_len next_q_flat) b t
        * (1 - don b t)

/-- Claim C7: for every gated training step, the TD target equals
`reward + discount_rate * max_next_q * (1 - done)` elementwise, where
`max_next_q` at `(b, t)` is exactly the maximum over the `act_dim`
actions of the target-network Q-values for that timestep (attained by
some action and an upper bound for all of them); no online-network
action selection is involved — `td_targets` consumes only the output
of the target network. -/
theorem c7_td_target (max_seq_len act_dim : Nat) (discount_rate : ℚ)
    (next_q_flat reward don : Nat → Nat → ℚ) (b t : Nat)
    (hA : 0 < act_dim) :
    td_targets max_seq_len act_dim discount_rate next_q_flat reward don b t
        = reward b t
          + discount_rate
            * max_over_actions act_dim (view3 max_seq_len next_q_flat) b t
            * (1 - don b t)
      ∧ (∃ a, a < act_dim
          ∧ max_over_actions act_dim (view3 max_seq_len next_q_flat) b t
            = next_q_flat (b * max_seq_len + t) a)
      ∧ (∀ a, a < act_dim →
          next_q_flat (b * max_seq_len + t) a
            ≤ max_over_actions act_dim (view3 max_seq_len next_q_flat) b t) := by
  refine ⟨rfl, ?_, ?_⟩
  · have hne : (List.range act_dim).map (view3 max_seq_len next_q_flat b t) ≠ [] := by
      simp [List.map_eq_nil, List.range_eq_nil]
      omega
    have hmem := list_max_mem _ hne
    rcases List.mem_map.mp hmem with ⟨a, ha, hval⟩
    exact ⟨a, List.mem_range.mp ha, hval.symm⟩
  · intro a ha
    exact le_list_max _ _ (List.mem_map.mpr ⟨a, List.mem_range.mpr ha, rfl⟩)

/-- Witness for C7 at a concrete instance: two actions, sequence
length 3, batch element 1, timestep 2. -/
theorem c7_td_target_witness :
    td_targets 3 2 (99/100) (fun i a => (i : ℚ) + a) (fun b t => b + t)
        (fun b t => 0) 1 2
        = (fun (b t : Nat) => (b : ℚ) + t) 1 2
          + (99/100)
            * max_over_actions 2 (view3 3 (fun i a => (i : ℚ) + a)) 1 2
            * (1 - (fun (b t : Nat) => (0 : ℚ)) 1 2)
      ∧ (∃ a, a < 2
          ∧ max_over_actions 2 (view3 3 (fun i a => (i : ℚ) + a)) 1 2
            = (fun (i a : Nat) => (i : ℚ) + a) (1 * 3 + 2) a)
      ∧ (∀ a, a < 2 →
          (fun (i a : Nat) => (i : ℚ) + a) (1 * 3 + 2) a
            ≤ max_over_actions 2 (view3 3 (fun i a => (i : ℚ) + a)) 1 2) :=
  c7_td_target 3 2 (99/100) (fun i a => (i : ℚ) + a) (fun b t => (b : ℚ) + t)
    (fun b t => 0) 1 2 (by decide)

/-! ## Hidden-state lifecycle claims -/

/-- Claim C1 (amended): the reset-to-zeros-on-done invariant holds for
the persisting variant only.  `DRQNhiddenAgent.update` leaves the live
hidden state zeroed exactly when the processed transition has
`done = True` and unchanged otherwise; its `act` never resets but
always replaces the hidden state by the network output; and the
baseline `DRQNAgent.update` never touches the live hidden state at all,
so the both-variants reading of the claim fails (see the counterexample). -/
theorem c1_reset_exactly_on_done (cfg : Config) (opt : List ℚ → List ℚ)
    (fwd : Fwd) (eps_value : Nat → ℚ) (should_log : Bool) (rand : ℚ)
    (rand_int : Nat) (sp : DRQNhiddenState) (sb : DRQNState)
    (observation : Obs) (info info2 : UpdateInfo) :
    (DRQNhiddenAgent.update cfg opt sp info).1.hidden_state
        = (if info.done then init_hidden cfg.hidden_dim else sp.hidden_state)
      ∧ (DRQNhiddenAgent.act cfg fwd eps_value should_log rand rand_int sp
          observation).state.hidden_state
        = (fwd observation sp.hidden_state).2
      ∧ (DRQNAgent.update cfg opt sb info2).1.hidden_state = sb.hidden_state := by
  refine ⟨?_, rfl, ?_⟩
  · unfold DRQNhiddenAgent.update
    dsimp only
    split_ifs <;> rfl
  · unfold DRQNAgent.update
    dsimp only
    split_ifs <;> rfl

/-! ## Concrete fixtures used by counterexamples and witnesses -/

def demo_cfg : Config :=
  { act_dim := 2, batch_size := 32, discount_rate := 99/100,
    reward_clip := some 1, test_epsilon := 1/1000, hidden_dim := 1,
    target_net_soft_update := false, target_net_update_fraction := 1/20 }

def demo_fwd : Fwd := fun _ h => ([3, 7], (h.2, h.1))

def demo_eps_value : Nat → ℚ := fun _ => 1/2

def demo_bstate_train : DRQNState :=
  { training := true, episode_start := false, hidden_state := ([5], [6]),
    learn_schedule := { steps := 0, threshold := 5000 },
    epsilon_schedule := { steps := 0 },
    update_period_schedule := { counter := 0, period := 4 },
    target_net_update_schedule := { counter := 0, period := 100 },
    replay_buffer := [], qnet_params := [1], target_params := [2] }

def demo_bstate_eval : DRQNState := { demo_bstate_train with training := false }

def demo_hstate_train : DRQNhiddenState :=
  { training := true, episode_start := false, hidden_state := ([5], [6]),
    prev_hidden_state := [0], prev_cell_state := [0],
    learn_schedule := { steps := 0, threshold := 5000 },
    epsilon_schedule := { steps := 0 },
    update_period_schedule := { counter := 0, period := 4 },
    target_net_update_schedule := { counter := 0, period := 100 },
    replay_buffer := [], qnet_params := [1], target_params := [2] }

def demo_hstate_eval : DRQNhiddenState := { demo_hstate_train with training := false }

def demo_info : UpdateInfo :=
  { observation := [9], action := 1, reward := 5, done := false, agent_id := none }

def demo_info_done : UpdateInfo := { demo_info with done := true }

/-- Counterexample for claim C1 as stated: for the baseline variant, a
training-mode `update` that processes a `done = True` transition leaves
the live hidden state untouched — it is not the zero-initialized hidden
state afterwards, so the reset invariant does not hold "for both agent
variants". -/
theorem c1_counterexample :
    demo_info_done.done = true
      ∧ (DRQNAgent.update demo_cfg (fun p => p) demo_bstate_train
          demo_info_done).1.hidden_state
        ≠ init_hidden demo_cfg.hidden_dim := by
  decide

/-- Claim C9: in the persisting variant, the `done = True` side effects
of `update` — `episode_start := True` and the reset of the live hidden
state to zeros — happen before the training-mode check, hence on every
`update` call with `done = True`, in evaluation mode included. -/
theorem c9_done_effects_before_training_check (cfg : Config)
    (opt : List ℚ → List ℚ) (s : DRQNhiddenState) (info : UpdateInfo)
    (h : info.done = true) :
    (DRQNhiddenAgent.update cfg opt s info).1.episode_start = true
      ∧ (DRQNhiddenAgent.update cfg opt s info).1.hidden_state
          = init_hidden cfg.hidden_dim := by
  unfold DRQNhiddenAgent.update
  dsimp only
  split_ifs <;> first | exact ⟨rfl, rfl⟩ | simp_all

/-- Witness for C9 at a concrete evaluation-mode state. -/
theorem c9_witness :
    demo_info_done.done = true
      ∧ ((DRQNhiddenAgent.update demo_cfg (fun p => p) demo_hstate_eval
            demo_info_done).1.episode_start = true
        ∧ (DRQNhiddenAgent.update demo_cfg (fun p => p) demo_hstate_eval
            demo_info_done).1.hidden_state = init_hidden demo_cfg.hidden_dim) :=
  ⟨rfl, c9_done_effects_before_training_check demo_cfg (fun p => p)
    demo_hstate_eval demo_info_done rfl⟩

/-- Claim C8: an `update` call outside training mode returns right
after the episode-boundary handling: the whole result is the
episode-boundary-adjusted state with no effects — nothing is added to
the replay buffer, no sampling, no loss, no optimizer step (and no
schedule advances).  Stated for both variants. -/
theorem c8_eval_update_no_effects (cfg : Config) (ob op : List ℚ → List ℚ)
    (sb : DRQNState) (sp : DRQNhiddenState) (ib ip : UpdateInfo)
    (hb : sb.training = false) (hp : sp.training = false) :
    DRQNAgent.update cfg ob sb ib
        = (if ib.done then { sb with episode_start := true } else sb,
           UpdateEffects.nothing)
      ∧ DRQNhiddenAgent.update cfg op sp ip
        = (if ip.done then
             { sp with episode_start := true,
                       hidden_state := init_hidden cfg.hidden_dim }
           else sp,
           UpdateEffects.nothing) := by
  constructor
  · unfold DRQNAgent.update
    dsimp only
    split_ifs <;> simp_all
  · unfold DRQNhiddenAgent.update
    dsimp only
    split_ifs <;> simp_all

/-- Witness for C8 at concrete evaluation-mode states. -/
theorem c8_witness :
    demo_bstate_eval.training = false
      ∧ demo_hstate_eval.training = false
      ∧ (DRQNAgent.update demo_cfg (fun p => p) demo_bstate_eval demo_info
          = (if demo_info.done then
               { demo_bstate_eval with episode_start := true }
             else demo_bstate_eval, UpdateEffects.nothing)
        ∧ DRQNhiddenAgent.update demo_cfg (fun p => p) demo_hstate_eval demo_info
          = (if demo_info.done then
               { demo_hstate_eval with
                  episode_start := true,
                  hidden_state := init_hidden demo_cfg.hidden_dim }
             else demo_hstate_eval, UpdateEffects.nothing)) :=
  ⟨rfl, rfl, c8_eval_update_no_effects demo_cfg (fun p => p) (fun p => p)
    demo_bstate_eval demo_hstate_eval demo_info demo_info rfl rfl⟩

/-- Claim C3: in the persisting variant, when `act` is followed by one
`update` for the same environment step (in training mode, so the
transition is stored), the stored `hidden_state` and
`cell_state` fields are exactly the hidden/cell state that existed
immediately before the forward pass in `act` that produced the action —
`s.hidden_state`, not the advanced state `fwd(...)` that follows it. -/
lemma DRQNhiddenAgent.act_state_fields (cfg : Config) (fwd : Fwd)
    (eps_value : Nat → ℚ) (should_log : Bool) (rand : ℚ) (rand_int : Nat)
    (s : DRQNhiddenState) (observation : Obs) :
    (DRQNhiddenAgent.act cfg fwd eps_value should_log rand rand_int s
        observation).state.training = s.training
      ∧ (DRQNhiddenAgent.act cfg fwd eps_value should_log rand rand_int s
          observation).state.replay_buffer = s.replay_buffer
      ∧ (DRQNhiddenAgent.act cfg fwd eps_value should_log rand rand_int s
          observation).state.prev_hidden_state = s.hidden_state.1
      ∧ (DRQNhiddenAgent.act cfg fwd eps_value should_log rand rand_int s
          observation).state.prev_cell_state = s.hidden_state.2 := by
  unfold DRQNhiddenAgent.act
  dsimp only
  exact ⟨rfl, rfl, rfl, rfl⟩

lemma DRQNhiddenAgent.update_buffer_append (cfg : Config)
    (opt : List ℚ → List ℚ) (s : DRQNhiddenState) (info : UpdateInfo)
    (h : s.training = true) :
    (DRQNhiddenAgent.update cfg opt s info).1.replay_buffer
      = s.replay_buffer
        ++ [{ observation := info.observation
              action := info.action
              reward := clip_reward cfg.reward_clip info.reward
              done := info.done
              agent_id := info.agent_id
              hidden_state := some s.prev_hidden_state
              cell_state := some s.prev_cell_state }] := by
  unfold DRQNhiddenAgent.update DRQNhiddenAgent.preprocess_update_info
  dsimp only
  split_ifs <;> simp_all

theorem c3_snapshot_ordering (cfg : Config) (fwd : Fwd) (eps_value : Nat → ℚ)
    (should_log : Bool) (rand : ℚ) (rand_int : Nat) (opt : List ℚ → List ℚ)
    (s : DRQNhiddenState) (observation : Obs) (info : UpdateInfo)
    (h : s.training = true) :
    (DRQNhiddenAgent.update cfg opt
        (DRQNhiddenAgent.act cfg fwd eps_value should_log rand rand_int s
          observation).state info).1.replay_buffer
      = s.replay_buffer
        ++ [{ observation := info.observation
              action := info.action
              reward := clip_reward cfg.reward_clip info.reward
              done := info.done
              agent_id := info.agent_id
              hidden_state := some s.hidden_state.1
              cell_state := some s.hidden_state.2 }] := by
  obtain ⟨h1, h2, h3, h4⟩ := DRQNhiddenAgent.act_state_fields cfg fwd eps_value
    should_log rand rand_int s observation
  rw [DRQNhiddenAgent.update_buffer_append cfg opt _ info (h1.trans h),
    h2, h3, h4]

/-- Witness for C3 at a concrete training-mode state. -/
theorem c3_witness :
    demo_hstate_train.training = true
      ∧ (DRQNhiddenAgent.update demo_cfg (fun p => p)
          (DRQNhiddenAgent.act demo_cfg demo_fwd demo_eps_value false (1/3) 1
            demo_hstate_train [9]).state demo_info).1.replay_buffer
        = demo_hstate_train.replay_buffer
          ++ [{ observation := demo_info.observation
                action := demo_info.action
                reward := clip_reward demo_cfg.reward_clip demo_info.reward
                done := demo_info.done
                agent_id := demo_info.agent_id
                hidden_state := some demo_hstate_train.hidden_state.1
                cell_state := some demo_hstate_train.hidden_state.2 }] :=
  ⟨rfl, c3_snapshot_ordering demo_cfg demo_fwd demo_eps_value false (1/3) 1
    (fun p => p) demo_hstate_train [9] demo_info rfl⟩

/-- Claim C5 (amended): target-network parameters change only at
`update` calls where the target-update schedule fires and are
bit-identical across all other calls (the optimizer step writes only
the online-network parameters); the target-update schedule check runs
on every *training-mode* `update` call regardless of whether the gated
training step happened on that call.  (As stated, with "every update()
call", the claim fails: evaluation-mode calls return before the check —
see the counterexample.) -/
theorem c5_target_sync_schedule (cfg : Config) (opt : List ℚ → List ℚ)
    (s : DRQNState) (info : UpdateInfo) :
    ((DRQNAgent.update cfg opt s info).2.target_fired = false →
        (DRQNAgent.update cfg opt s info).1.target_params = s.target_params)
      ∧ (s.training = true →
          (DRQNAgent.update cfg opt s info).2.target_check_ran = true) := by
  unfold DRQNAgent.update
  dsimp only
  constructor <;> (intro h; split_ifs <;> simp_all)

/-- Witness for C5 at a concrete training-mode state (schedules not
firing, so the target parameters are unchanged). -/
theorem c5_witness :
    ((DRQNAgent.update demo_cfg (fun p => p) demo_bstate_train
          demo_info).2.target_fired = false →
        (DRQNAgent.update demo_cfg (fun p => p) demo_bstate_train
          demo_info).1.target_params = demo_bstate_train.target_params)
      ∧ (demo_bstate_train.training = true →
          (DRQNAgent.update demo_cfg (fun p => p) demo_bstate_train
            demo_info).2.target_check_ran = true) :=
  c5_target_sync_schedule demo_cfg (fun p => p) demo_bstate_train demo_info

/-- Counterexample for C5 as stated: on an evaluation-mode `update`
call the function returns before its last statement, so the
target-update schedule check does not run on that call (its schedule is
not advanced and no check effect is recorded). -/
theorem c5_counterexample :
    (DRQNAgent.update demo_cfg (fun p => p) demo_bstate_eval
        demo_info).2.target_check_ran = false
      ∧ (DRQNAgent.update demo_cfg (fun p => p) demo_bstate_eval
          demo_info).1.target_net_update_schedule
        = demo_bstate_eval.target_net_update_schedule := by
  decide

/-- Claim C6: in training mode before the learn-start schedule signals
readiness, `act` uses `epsilon = 1.0`, the exploratory branch is taken
for every rng draw in `[0, 1)` — so the action is the uniform draw
`rand_int` over `[0, act_dim)` with probability 1, independent of the
value of the epsilon schedule — and the epsilon schedule is not advanced. -/
theorem c6_exploration_floor (cfg : Config) (fwd : Fwd) (eps_value : Nat → ℚ)
    (should_log : Bool) (rand : ℚ) (rand_int : Nat) (s : DRQNState)
    (observation : Obs) (ht : s.training = true)
    (hl : s.learn_schedule.get_value = false) (h0 : 0 ≤ rand)
    (h1 : rand < 1) (hd : 0 < cfg.act_dim) :
    (DRQNAgent.act cfg fwd eps_value should_log rand rand_int s
        observation).epsilon = 1
      ∧ (DRQNAgent.act cfg fwd eps_value should_log rand rand_int s
          observation).action = rand_int % cfg.act_dim
      ∧ (DRQNAgent.act cfg fwd eps_value should_log rand rand_int s
          observation).action < cfg.act_dim
      ∧ (DRQNAgent.act cfg fwd eps_value should_log rand rand_int s
          observation).state.epsilon_schedule = s.epsilon_schedule := by
  have hm : rand_int % cfg.act_dim < cfg.act_dim := Nat.mod_lt rand_int hd
  unfold DRQNAgent.act
  dsimp only
  split_ifs <;> simp_all

/-- Witness for C6 at a concrete state below the learn-start threshold. -/
theorem c6_witness :
    demo_bstate_train.training = true
      ∧ demo_bstate_train.learn_schedule.get_value = false
      ∧ (0 : ℚ) ≤ 1/3 ∧ (1/3 : ℚ) < 1 ∧ 0 < demo_cfg.act_dim
      ∧ ((DRQNAgent.act demo_cfg demo_fwd demo_eps_value false (1/3) 5
            demo_bstate_train [9]).epsilon = 1
        ∧ (DRQNAgent.act demo_cfg demo_fwd demo_eps_value false (1/3) 5
            demo_bstate_train [9]).action = 5 % demo_cfg.act_dim
        ∧ (DRQNAgent.act demo_cfg demo_fwd demo_eps_value false (1/3) 5
            demo_bstate_train [9]).action < demo_cfg.act_dim
        ∧ (DRQNAgent.act demo_cfg demo_fwd demo_eps_value false (1/3) 5
            demo_bstate_train [9]).state.epsilon_schedule
          = demo_bstate_train.epsilon_schedule) :=
  ⟨rfl, rfl, by norm_num, by norm_num, by decide,
    c6_exploration_floor demo_cfg demo_fwd demo_eps_value false (1/3) 5
      demo_bstate_train [9] rfl rfl (by norm_num) (by norm_num) (by decide)⟩

/-- A training-mode state whose learn-start threshold models the
constructor argument `min_replay_history = 0` and whose update-period
schedule fires every call: the gate of `DRQNAgent.update` then passes
with a single stored transition. -/
def c2_state : DRQNState :=
  { training := true, episode_start := false, hidden_state := ([0], [0]),
    learn_schedule := { steps := 0, threshold := 0 },
    epsilon_schedule := { steps := 0 },
    update_period_schedule := { counter := 0, period := 1 },
    target_net_update_schedule := { counter := 0, period := 1000 },
    replay_buffer := [], qnet_params := [1], target_params := [2] }

/-- Claim C2, evaluated at the failing input: the gate of
`DRQNAgent.update` checks only `replay_buffer.size() > 0`, not
`size() >= batch_size`, and there is no try/except around `sample`
despite the source comment announcing one; on this call the buffer
holds 1 storable unit, `batch_size = 32`, yet
`sample(batch_size)` is attempted. -/
theorem c2_sample_attempted_below_batch_size :
    (DRQNAgent.update demo_cfg (fun p => p) c2_state
        demo_info).2.sample_attempted = true
      ∧ (DRQNAgent.update demo_cfg (fun p => p) c2_state
          demo_info).1.replay_buffer.length = 1
      ∧ demo_cfg.batch_size = 32 := by
  decide
